import Mathlib

/-!
Formal model of the signal-generation core of the Solana-AI-Trader repository
(`src/models/ai_model.py`, class `SolanaAITrader`), together with proofs and
refutations of the specification claims about it.

Conventions of the shallow embedding:
* A pandas cell is `Option ℚ`: `none` models a float NaN, `some q` a finite
  value.  Exact rationals stand in for IEEE doubles; the claims under study
  concern control flow, NaN/fill structure, column selection, state handling
  and exact algebraic identities, none of which depend on float rounding.
* A fallible Python method (one that can raise) is embedded with an `Option`
  or `Except` codomain; a raised exception is `none` / `.error`.
* The square root used by Bollinger bands, the rolling standard deviation and
  the feature scaler is irrational on most inputs; `sqrtQ` below is a
  deterministic rational stand-in (exact on perfect squares).  No claim in
  scope depends on the numeric value of a square root, only on where such a
  value is defined and on which data it is computed.
* The fitted sklearn/prophet estimators are opaque third-party state.  They
  are modelled by the data they were fitted on, and their `predict` methods by
  fixed deterministic functions of that state; the claims in scope depend only
  on which state is consulted, never on the numeric predictions.
-/

namespace SolanaAITrader

/-- A pandas cell: `none` is NaN. -/
abbrev Cell := Option ℚ

/-- One OHLCV bar of the input frame (`timestamp` is the frame index).
The claims under study all presuppose that the five OHLCV columns are
present, so the `high = low = open = close` fallback branch of
`calculate_technical_indicators` is never taken. -/
structure Bar where
  ts : ℚ
  open_ : ℚ
  high : ℚ
  low : ℚ
  close : ℚ
  volume : ℚ
deriving DecidableEq

/-- Deterministic rational stand-in for the real square root: exact on
perfect squares, a floor approximation elsewhere.  See the header note. -/
def sqrtQ (q : ℚ) : ℚ :=
  if q ≤ 0 then 0 else (Nat.sqrt (q.num.toNat * q.den) : ℚ) / (q.den : ℚ)

/-- Arithmetic mean (ℚ division by zero yields 0 on the empty list; the
program never takes a mean of an empty collection on the claim paths). -/
def meanQ (xs : List ℚ) : ℚ := xs.sum / (xs.length : ℚ)

/-- Population variance (`ddof = 0`), as used by `StandardScaler` and by the
`ta` Bollinger-band implementation. -/
def popVar (xs : List ℚ) : ℚ := meanQ (xs.map (fun x => (x - meanQ xs) ^ 2))

/-- Sample variance (`ddof = 1`), the pandas `rolling().std()` default. -/
def sampVar (xs : List ℚ) : ℚ :=
  (xs.map (fun x => (x - meanQ xs) ^ 2)).sum / ((xs.length - 1 : ℕ) : ℚ)

/-- Last value of `ewm(adjust := false).mean()` over a list of observations:
`y₀ = x₀`, `yₜ = (1 − a)·yₜ₋₁ + a·xₜ`; `none` on the empty list. -/
def ewmaLast (a : ℚ) : List ℚ → Cell
  | [] => none
  | x :: rest => some (rest.foldl (fun e y => (1 - a) * e + a * y) x)

/-- `ewm(span := w, min_periods := w, adjust := false).mean()` over a total
column, evaluated at the last row of the prefix `xs`. -/
def emaLast (w : ℕ) (xs : List ℚ) : Cell :=
  if xs.length < w then none else ewmaLast (2 / ((w : ℚ) + 1)) xs

/-- Number of non-NaN cells. -/
def someCount (xs : List Cell) : ℕ := (xs.filterMap id).length

/-- `ewm` over a column that may hold NaNs (used for the MACD signal line,
whose input has leading NaNs only): the recursion starts at the first defined
value and the output is NaN until `minp` observations have been seen. -/
def ewmaLastOpt (a : ℚ) (minp : ℕ) (xs : List Cell) : Cell :=
  if someCount xs < minp then none else ewmaLast a (xs.filterMap id)

/-- `rolling(window := w)` of an aggregate `g`, evaluated at the last row of
the prefix `xs`: NaN until `w` rows exist, else `g` of the trailing window. -/
def rollLast (w : ℕ) (g : List ℚ → ℚ) (xs : List ℚ) : Cell :=
  if xs.length < w then none else some (g (xs.drop (xs.length - w)))

/-- A whole pandas column, built row by row: the cell at row `i` is
`f` applied to the prefix of the first `i + 1` bars.  All indicators of the
engine are trailing-window computations, so every column fits this shape. -/
def trail (f : List Bar → Cell) (s : List Bar) : List Cell :=
  (List.range s.length).map (fun i => f (s.take (i + 1)))

/-- `ffill` with an explicit carried value: a NaN cell takes the last defined
value seen so far (or stays NaN if none exists yet). -/
def ffillAux (acc : Cell) : List Cell → List Cell
  | [] => []
  | c :: cs =>
    match c with
    | some v => some v :: ffillAux (some v) cs
    | none => acc :: ffillAux acc cs

/-- `df.fillna(method := "ffill").fillna(0)` on one column: forward fill,
then replace every remaining NaN (necessarily a leading one) by `0`. -/
def fillCol (xs : List Cell) : List Cell :=
  (ffillAux none xs).map (fun c => some (c.getD 0))

/-- The last defined value of a list of cells, if any. -/
def lastSome (xs : List Cell) : Cell :=
  xs.foldl (fun acc c => match c with | some v => some v | none => acc) none

/-- Index of the first defined cell, if any. -/
def firstSomeIdx (xs : List Cell) : Option ℕ :=
  xs.findIdx? (·.isSome)

section Columns

/-- Closing prices of a prefix of bars. -/
def closesOf (p : List Bar) : List ℚ := p.map Bar.close

/-- Volumes of a prefix of bars. -/
def volsOf (p : List Bar) : List ℚ := p.map Bar.volume

/-- Lows of a prefix of bars. -/
def lowsOf (p : List Bar) : List ℚ := p.map Bar.low

/-- Highs of a prefix of bars. -/
def highsOf (p : List Bar) : List ℚ := p.map Bar.high

/-- Upward moves of the close series, as `ta`'s RSI builds them:
`diff.where(diff > 0, 0.0)`.  Note the first element is `0.0`, not NaN,
because `NaN > 0` is false and `where` replaces it. -/
def upMoves (cs : List ℚ) : List ℚ :=
  0 :: List.zipWith (fun a b => if 0 < b - a then b - a else 0) cs cs.tail

/-- Downward moves: `-diff.where(diff < 0, -0.0)`. -/
def downMoves (cs : List ℚ) : List ℚ :=
  0 :: List.zipWith (fun a b => if b - a < 0 then a - b else 0) cs cs.tail

/-- `ta.momentum.RSIIndicator(close, window := 14).rsi()` at the last row of
the prefix `p`: Wilder smoothing (`ewm(alpha := 1/14, min_periods := 14,
adjust := false)`) of the up/down moves; when the down average is zero the
RSI is 100. -/
def rsiLast (p : List Bar) : Cell :=
  let cs := closesOf p
  if cs.length < 14 then none
  else
    match ewmaLast (1 / 14) (upMoves cs), ewmaLast (1 / 14) (downMoves cs) with
    | some u, some d => if d = 0 then some 100 else some (100 - 100 / (1 + u / d))
    | _, _ => none

/-- MACD line at the last row: `EMA₁₂(close) − EMA₂₆(close)` (both with
`min_periods` equal to their span, per `ta`'s `_ema`). -/
def macdLast (p : List Bar) : Cell :=
  match emaLast 12 (closesOf p), emaLast 26 (closesOf p) with
  | some a, some b => some (a - b)
  | _, _ => none

/-- The MACD column over a series of bars. -/
def macdSeries (s : List Bar) : List Cell := trail macdLast s

/-- MACD signal line at the last row: 9-period EMA of the MACD column (whose
leading cells are NaN). -/
def macdSignalLast (p : List Bar) : Cell :=
  ewmaLastOpt (2 / 10) 9 (macdSeries p)

/-- MACD histogram at the last row: line minus signal. -/
def macdDiffLast (p : List Bar) : Cell :=
  match macdLast p, macdSignalLast p with
  | some a, some b => some (a - b)
  | _, _ => none

/-- Bollinger 20-period moving average at the last row. -/
def bbMidLast (p : List Bar) : Cell := rollLast 20 meanQ (closesOf p)

/-- Bollinger upper band: mean + 2·(population std) of the trailing 20. -/
def bbHighLast (p : List Bar) : Cell :=
  rollLast 20 (fun w => meanQ w + 2 * sqrtQ (popVar w)) (closesOf p)

/-- Bollinger lower band: mean − 2·(population std) of the trailing 20. -/
def bbLowLast (p : List Bar) : Cell :=
  rollLast 20 (fun w => meanQ w - 2 * sqrtQ (popVar w)) (closesOf p)

/-- Volume EMA(20) at the last row. -/
def volumeEmaLast (p : List Bar) : Cell := emaLast 20 (volsOf p)

/-- `volume / volume_ema` at the last row.  Pandas produces NaN for `0/0`
(the only zero-denominator case reachable from non-negative volumes, since
the EMA of non-negative volumes vanishes only when every volume so far is
zero); a zero denominator is therefore modelled as NaN. -/
def volumeRatioLast (p : List Bar) : Cell :=
  match volumeEmaLast p with
  | none => none
  | some e => if e = 0 then none else (volsOf p).getLast?.map (· / e)

/-- `close.pct_change()` at the last row: NaN at row 0; NaN on a zero
previous close (unreachable for valid positive-price series). -/
def priceChangeLast (p : List Bar) : Cell :=
  match (closesOf p).getLast?, (closesOf p).dropLast.getLast? with
  | some c, some cp => if cp = 0 then none else some (c / cp - 1)
  | _, _ => none

/-- `high / low` of the last row (NaN on a zero low, see `volumeRatioLast`). -/
def highLowLast (p : List Bar) : Cell :=
  p.getLast?.bind (fun b => if b.low = 0 then none else some (b.high / b.low))

/-- `close / open` of the last row. -/
def closeOpenLast (p : List Bar) : Cell :=
  p.getLast?.bind (fun b => if b.open_ = 0 then none else some (b.close / b.open_))

/-- Rolling 20-period sample standard deviation of close (volatility). -/
def volatilityLast (p : List Bar) : Cell :=
  rollLast 20 (fun w => sqrtQ (sampVar w)) (closesOf p)

/-- Rolling 20-period minimum of low (support). -/
def supportLast (p : List Bar) : Cell :=
  rollLast 20 (fun w => (w.min?).getD 0) (lowsOf p)

/-- Rolling 20-period maximum of high (resistance). -/
def resistanceLast (p : List Bar) : Cell :=
  rollLast 20 (fun w => (w.max?).getD 0) (highsOf p)

end Columns

/-- The augmented frame returned by `calculate_technical_indicators`: the
five input columns plus the eighteen indicator columns, all after the final
`fillna(method := "ffill").fillna(0)` (which pandas applies to every column
of the frame, the OHLCV ones included). -/
structure OutDF where
  open_ : List Cell
  high : List Cell
  low : List Cell
  close : List Cell
  volume : List Cell
  rsi : List Cell
  macd : List Cell
  macd_signal : List Cell
  macd_diff : List Cell
  bb_high : List Cell
  bb_low : List Cell
  bb_mid : List Cell
  ema_9 : List Cell
  ema_21 : List Cell
  sma_50 : List Cell
  volume_ema : List Cell
  volume_ratio : List Cell
  price_change : List Cell
  high_low_ratio : List Cell
  close_open_ratio : List Cell
  volatility : List Cell
  support : List Cell
  resistance : List Cell
deriving DecidableEq

/-- The total core of the indicator engine (every pandas operation in the
method body is total on frames with the OHLCV columns present). -/
def calcOut (s : List Bar) : OutDF where
  open_ := fillCol (s.map (fun b => some b.open_))
  high := fillCol (s.map (fun b => some b.high))
  low := fillCol (s.map (fun b => some b.low))
  close := fillCol (s.map (fun b => some b.close))
  volume := fillCol (s.map (fun b => some b.volume))
  rsi := fillCol (trail rsiLast s)
  macd := fillCol (trail macdLast s)
  macd_signal := fillCol (trail macdSignalLast s)
  macd_diff := fillCol (trail macdDiffLast s)
  bb_high := fillCol (trail bbHighLast s)
  bb_low := fillCol (trail bbLowLast s)
  bb_mid := fillCol (trail bbMidLast s)
  ema_9 := fillCol (trail (fun p => emaLast 9 (closesOf p)) s)
  ema_21 := fillCol (trail (fun p => emaLast 21 (closesOf p)) s)
  sma_50 := fillCol (trail (fun p => rollLast 50 meanQ (closesOf p)) s)
  volume_ema := fillCol (trail volumeEmaLast s)
  volume_ratio := fillCol (trail volumeRatioLast s)
  price_change := fillCol (trail priceChangeLast s)
  high_low_ratio := fillCol (trail highLowLast s)
  close_open_ratio := fillCol (trail closeOpenLast s)
  volatility := fillCol (trail volatilityLast s)
  support := fillCol (trail supportLast s)
  resistance := fillCol (trail resistanceLast s)

/-- `calculate_technical_indicators`.  The method body contains no
validation and no raise path for frames with the OHLCV columns present, so
the error channel (present to make rejection claims statable) is never
used: every input is returned augmented. -/
def calculate_technical_indicators (s : List Bar) : Except String OutDF :=
  .ok (calcOut s)

/-- The fixed feature list assigned to `self.feature_columns`. -/
def featureColumns : List String :=
  ["rsi", "macd", "macd_signal", "macd_diff",
   "bb_high", "bb_low", "bb_mid",
   "ema_9", "ema_21", "sma_50",
   "volume_ratio", "price_change",
   "high_low_ratio", "close_open_ratio",
   "volatility"]

/-- Column lookup on the augmented frame (`df[name]`): `none` when the name
is not a column of the frame. -/
def colByName (d : OutDF) (n : String) : Option (List Cell) :=
  if n = "open" then some d.open_
  else if n = "high" then some d.high
  else if n = "low" then some d.low
  else if n = "close" then some d.close
  else if n = "volume" then some d.volume
  else if n = "rsi" then some d.rsi
  else if n = "macd" then some d.macd
  else if n = "macd_signal" then some d.macd_signal
  else if n = "macd_diff" then some d.macd_diff
  else if n = "bb_high" then some d.bb_high
  else if n = "bb_low" then some d.bb_low
  else if n = "bb_mid" then some d.bb_mid
  else if n = "ema_9" then some d.ema_9
  else if n = "ema_21" then some d.ema_21
  else if n = "sma_50" then some d.sma_50
  else if n = "volume_ema" then some d.volume_ema
  else if n = "volume_ratio" then some d.volume_ratio
  else if n = "price_change" then some d.price_change
  else if n = "high_low_ratio" then some d.high_low_ratio
  else if n = "close_open_ratio" then some d.close_open_ratio
  else if n = "volatility" then some d.volatility
  else if n = "support" then some d.support
  else if n = "resistance" then some d.resistance
  else none

/-- `prepare_features`: augment the frame, then select
`df[self.feature_columns]` — the feature frame as an ordered list of named
columns (each found by name in the augmented frame). -/
def prepare_features (s : List Bar) : List (Option (List Cell)) :=
  featureColumns.map (colByName (calcOut s))

/-- The fifteen feature columns in their fixed order, as frame fields. -/
def featureCols (d : OutDF) : List (List Cell) :=
  [d.rsi, d.macd, d.macd_signal, d.macd_diff,
   d.bb_high, d.bb_low, d.bb_mid,
   d.ema_9, d.ema_21, d.sma_50,
   d.volume_ratio, d.price_change,
   d.high_low_ratio, d.close_open_ratio,
   d.volatility]

/-- The feature frame as rows: row `i` holds the fifteen feature values of
row `i`.  Every cell of a filled column is defined, so extracting the
rational with default `0` loses nothing. -/
def featureMatrix (s : List Bar) : List (List ℚ) :=
  (List.range s.length).map
    (fun i => (featureCols (calcOut s)).map (fun col => (((col)[i]?).bind id).getD 0))

/-- `StandardScaler` state after `fit`: per-feature mean and (population)
variance. -/
structure ScalerParams where
  means : List ℚ
  vars : List ℚ
deriving DecidableEq

/-- Number of feature columns of a (rectangular) matrix of rows. -/
def nFeatures (x : List (List ℚ)) : ℕ := ((x.head?).map List.length).getD 0

/-- Column `j` of a matrix of rows. -/
def matCol (x : List (List ℚ)) (j : ℕ) : List ℚ := x.map (fun r => r.getD j 0)

/-- `StandardScaler.fit` on a matrix of rows: per-column mean and variance. -/
def fitScaler (x : List (List ℚ)) : ScalerParams :=
  ⟨(List.range (nFeatures x)).map (fun j => meanQ (matCol x j)),
   (List.range (nFeatures x)).map (fun j => popVar (matCol x j))⟩

/-- sklearn's per-feature scale: `sqrt(var)`, with zero variance mapped to a
scale of `1` (`_handle_zeros_in_scale`). -/
def scaleOf (v : ℚ) : ℚ := if v = 0 then 1 else sqrtQ v

/-- `StandardScaler.transform` on one row. -/
def scalerTransform (sp : ScalerParams) (x : List ℚ) : List ℚ :=
  List.zipWith3 (fun xi m v => (xi - m) / scaleOf v) x sp.means sp.vars

/-- Opaque fitted `RandomForestRegressor`: the (scaled) training matrix and
training targets it was fitted on.  See the header note on opacity. -/
structure RegModel where
  xdata : List (List ℚ)
  ydata : List ℚ
deriving DecidableEq

/-- Opaque fitted `GradientBoostingClassifier`. -/
structure ClsModel where
  xdata : List (List ℚ)
  ydata : List ℕ
deriving DecidableEq

/-- Opaque fitted `Prophet` model: the `(ds, y)` pairs it was fitted on. -/
structure ProphetModel where
  data : List (ℚ × ℚ)
deriving DecidableEq

/-- Stand-in for `RandomForestRegressor.predict` on one row: a fixed
deterministic function of the fitted state (mean training target).  No
claim depends on this value, only on which scaler state feeds it. -/
def rfPredict (m : RegModel) (x : List ℚ) : ℚ := meanQ m.ydata + 0 * x.sum

/-- Stand-in for `GradientBoostingClassifier.predict_proba` on one row:
`(P bearish, P bullish)`, the training class frequencies. -/
def clsProba (m : ClsModel) (x : List ℚ) : ℚ × ℚ :=
  let p1 : ℚ := ((m.ydata.filter (· = 1)).length : ℚ) / (m.ydata.length : ℚ) + 0 * x.sum
  (1 - p1, p1)

/-- Stand-in for `GradientBoostingClassifier.predict` on one row: the class
of largest probability (class 0 on a tie, as sklearn's argmax). -/
def clsPredict (m : ClsModel) (x : List ℚ) : ℕ :=
  if (clsProba m x).1 < (clsProba m x).2 then 1 else 0

/-- Stand-in for the one-step-ahead Prophet forecast `yhat`. -/
def prophetNext (pm : ProphetModel) : ℚ := meanQ (pm.data.map Prod.snd)

/-- The mutable state of a `SolanaAITrader` instance.  `scaler = none` is
the freshly constructed, not-yet-fitted `StandardScaler()` (transforming
with it raises `NotFittedError`).  The LSTM member is omitted:
`build_lstm_model` has no caller and the attribute is never consulted or
persisted.  `feature_columns` is omitted: it is set by every
`prepare_features` call to the same constant `featureColumns`, which is the
list the embedded feature selection uses. -/
structure TraderState where
  price_predictor : Option RegModel
  trend_classifier : Option ClsModel
  scaler : Option ScalerParams
  prophet_model : Option ProphetModel
deriving DecidableEq

/-- `SolanaAITrader.__init__`. -/
def initState : TraderState := ⟨none, none, none, none⟩

/-- `ceil(n * 0.2)`, sklearn's held-out size for `test_size = 0.2` (the
float product rounds to the exact rational ceiling for the sizes in scope). -/
def testCount (n : ℕ) : ℕ := (n + 4) / 5

/-- Size of the chronologically-first training partition under
`train_test_split(test_size := 0.2, shuffle := False)`. -/
def trainCount (n : ℕ) : ℕ := n - testCount n

/-- The regressor's training matrix and targets: features of all rows whose
next-period close exists (the shifted target is NaN only at the last row,
and the filled feature matrix holds no NaN), then the first 80%. -/
def regTrainData (df : List Bar) : List (List ℚ) × List ℚ :=
  let xv := (featureMatrix df).take (df.length - 1)
  let yv := (df.map Bar.close).drop 1
  let k := trainCount (df.length - 1)
  (xv.take k, yv.take k)

/-- `train_price_predictor`: fit the shared scaler on the training
partition, then fit the regressor on the scaled partition. -/
def train_price_predictor (st : TraderState) (df : List Bar) : TraderState :=
  let td := regTrainData df
  let sp := fitScaler td.1
  { st with
    scaler := some sp
    price_predictor := some ⟨td.1.map (scalerTransform sp), td.2⟩ }

/-- The trend label of row `i`: `1` when the close five periods ahead
exceeds the current close by more than 2%.  A NaN future return (the last
five rows) compares false and labels `0`, so no row is dropped.  (For a
zero current close pandas would produce an infinite return; the claims in
scope never depend on label values.) -/
def trendLabel (df : List Bar) (i : ℕ) : ℕ :=
  match (df.map Bar.close).get? (i + 5), (df.map Bar.close).get? i with
  | some c5, some c => if c ≠ 0 ∧ (1 : ℚ) / 50 < c5 / c - 1 then 1 else 0
  | _, _ => 0

/-- The classifier's training matrix and labels: every row is kept (labels
are never NaN), then the first 80%. -/
def clsTrainData (df : List Bar) : List (List ℚ) × List ℕ :=
  let k := trainCount df.length
  ((featureMatrix df).take k, ((List.range df.length).map (trendLabel df)).take k)

/-- `train_trend_classifier`: note that it refits the *shared* scaler on its
own training partition. -/
def train_trend_classifier (st : TraderState) (df : List Bar) : TraderState :=
  let td := clsTrainData df
  let sp := fitScaler td.1
  { st with
    scaler := some sp
    trend_classifier := some ⟨td.1.map (scalerTransform sp), td.2⟩ }

/-- `train_prophet_model`: fit on the `(timestamp, close)` pairs. -/
def train_prophet_model (st : TraderState) (df : List Bar) : TraderState :=
  { st with prophet_model := some ⟨df.map (fun b => (b.ts, b.close))⟩ }

/-- `train_ai_models`: fresh trader, then the three trainings in order. -/
def train_ai_models (df : List Bar) : TraderState :=
  train_prophet_model (train_trend_classifier (train_price_predictor initState df) df) df

/-- `predict_price` on one feature row.  An untrained member contributes no
entry (it is skipped, not an error); when any member contributed, the
arithmetic mean of the contributions is appended as `"ensemble"`.  The
result is `none` only when a present regressor meets an unfitted scaler
(`NotFittedError`), a path no claim reaches. -/
def predict_price (st : TraderState) (x : List ℚ) : Option (List (String × ℚ)) :=
  let prophetPart : List (String × ℚ) :=
    match st.prophet_model with
    | some pm => [("prophet", prophetNext pm)]
    | none => []
  match st.price_predictor with
  | none =>
    some (if prophetPart.isEmpty then prophetPart
          else prophetPart ++ [("ensemble", meanQ (prophetPart.map Prod.snd))])
  | some m =>
    match st.scaler with
    | none => none
    | some sp =>
      let ps := ("random_forest", rfPredict m (scalerTransform sp x)) :: prophetPart
      some (ps ++ [("ensemble", meanQ (ps.map Prod.snd))])

/-- The trend-analysis record returned by `predict_trend`:
`probabilities = none` models the key being absent from the dict (as in the
untrained default). -/
structure TrendResult where
  trend : String
  confidence : ℚ
  probabilities : Option (ℚ × ℚ)
deriving DecidableEq

/-- `predict_trend`: the untrained default is neutral with confidence 0.5;
otherwise classify the scaled features. -/
def predict_trend (st : TraderState) (x : List ℚ) : Option TrendResult :=
  match st.trend_classifier with
  | none => some ⟨"neutral", 1 / 2, none⟩
  | some m =>
    match st.scaler with
    | none => none
    | some sp =>
      let z := scalerTransform sp x
      let pr := clsProba m z
      some ⟨if clsPredict m z = 1 then "bullish" else "bearish",
            max pr.1 pr.2, some pr⟩

/-- Dictionary lookup `row.get(key, default)` on a row taken from the *raw*
input frame, whose only columns are the OHLCV ones. -/
def barGet (b : Bar) (k : String) (d : ℚ) : ℚ :=
  if k = "open" then b.open_
  else if k = "high" then b.high
  else if k = "low" then b.low
  else if k = "close" then b.close
  else if k = "volume" then b.volume
  else d

/-- The signal record assembled by `generate_trading_signals` (without the
wall-clock `timestamp` string, an external input). -/
structure SignalRecord where
  price_prediction : List (String × ℚ)
  trend_analysis : TrendResult
  rsi_value : ℚ
  rsi_signal : String
  macd_value : ℚ
  macd_signal : String
  recommendation : String
  confidence : ℚ
deriving DecidableEq

/-- `generate_trading_signals`.  Note: `latest_data = df.iloc[-1]` is taken
from the raw frame *before* `prepare_features` adds indicator columns, so
the `rsi` and `macd_diff` lookups fall back to their defaults 50 and 0.
`none` models the `IndexError` of `iloc[-1]` on an empty frame (or a
`NotFittedError` from the predict calls). -/
def generate_trading_signals (st : TraderState) (df : List Bar) : Option SignalRecord :=
  match df.getLast? with
  | none => none
  | some latest =>
    let featRow := ((featureMatrix df).getLast?).getD []
    match predict_price st featRow, predict_trend st featRow with
    | some pp, some ta =>
      let rsiVal := barGet latest "rsi" 50
      let rsiSig : String :=
        if rsiVal < 30 then "oversold" else if 70 < rsiVal then "overbought" else "neutral"
      let macdVal := barGet latest "macd_diff" 0
      let macdSig : String := if 0 < macdVal then "bullish" else "bearish"
      let b : ℕ :=
        (if ta.trend = "bullish" then 2 else 0) +
        (if rsiSig = "oversold" then 1 else 0) +
        (if macdSig = "bullish" then 1 else 0)
      let s : ℕ :=
        (if ta.trend = "bullish" then 0 else 2) +
        (if rsiSig = "overbought" then 1 else 0) +
        (if macdSig = "bullish" then 0 else 1)
      some
        { price_prediction := pp
          trend_analysis := ta
          rsi_value := rsiVal
          rsi_signal := rsiSig
          macd_value := macdVal
          macd_signal := macdSig
          recommendation :=
            if s + 1 < b then "BUY" else if b + 1 < s then "SELL" else "HOLD"
          confidence :=
            if s + 1 < b then (b : ℚ) / ((b : ℚ) + (s : ℚ))
            else if b + 1 < s then (s : ℚ) / ((b : ℚ) + (s : ℚ))
            else 1 / 2 }
    | _, _ => none

/-- The persisted bundle: one slot per dumped part.  `none` in a slot means
loading that part raises (file absent or corrupt).  The scaler slot stores
the scaler object whatever its fitness (`if self.scaler:` is always true of
a `StandardScaler` instance). -/
structure Store where
  price : Option RegModel
  trend : Option ClsModel
  scalerPart : Option (Option ScalerParams)
  prophet : Option ProphetModel
deriving DecidableEq

/-- `save_models`: dump each member that is present (an absent member
leaves its slot unreadable). -/
def save_models (st : TraderState) : Store :=
  ⟨st.price_predictor, st.trend_classifier, some st.scaler, st.prophet_model⟩

/-- `load_models`: the four parts are loaded and assigned sequentially
inside one `try`; the first failing load aborts the rest, the exception is
caught and only logged, and every assignment already made persists. -/
def load_models (st : TraderState) (store : Store) : TraderState :=
  match store.price with
  | none => st
  | some p =>
    let st1 := { st with price_predictor := some p }
    match store.trend with
    | none => st1
    | some t =>
      let st2 := { st1 with trend_classifier := some t }
      match store.scalerPart with
      | none => st2
      | some sc =>
        let st3 := { st2 with scaler := sc }
        match store.prophet with
        | none => st3
        | some pm => { st3 with prophet_model := some pm }

/-- Strictly increasing timestamps (in particular, no duplicates). -/
def tsStrictMono : List Bar → Bool
  | a :: b :: rest => (decide (a.ts < b.ts)) && tsStrictMono (b :: rest)
  | _ => true

/-- A bar with a negative price or a negative volume. -/
def badBar (b : Bar) : Bool :=
  decide (b.open_ < 0) || decide (b.high < 0) || decide (b.low < 0) ||
    decide (b.close < 0) || decide (b.volume < 0)

/-- A well-formed OHLCV series per the spec's data model: positive prices,
non-negative volume, strictly increasing timestamps. -/
def ValidSeries (s : List Bar) : Prop :=
  (∀ b ∈ s, 0 < b.open_ ∧ 0 < b.high ∧ 0 < b.low ∧ 0 < b.close ∧ 0 ≤ b.volume) ∧
    tsStrictMono s = true

/-- A malformed series per the spec's error taxonomy: non-monotonic or
duplicate timestamps, or a negative price or volume somewhere. -/
def MalformedSeries (s : List Bar) : Prop :=
  ¬ tsStrictMono s = true ∨ s.any badBar = true

instance (s : List Bar) : Decidable (ValidSeries s) :=
  inferInstanceAs (Decidable
    ((∀ b ∈ s, 0 < b.open_ ∧ 0 < b.high ∧ 0 < b.low ∧ 0 < b.close ∧ 0 ≤ b.volume) ∧
      tsStrictMono s = true))

instance (s : List Bar) : Decidable (MalformedSeries s) :=
  inferInstanceAs (Decidable (¬ tsStrictMono s = true ∨ s.any badBar = true))

/-! ### Derived notions used to state the claims -/

/-- The decision rule of Signal Fusion as a function of the bullish and
bearish point totals (source lines 300–308). -/
def fusionRecommendation (b s : ℕ) : String :=
  if s + 1 < b then "BUY" else if b + 1 < s then "SELL" else "HOLD"

/-- The confidence rule of Signal Fusion as a function of the point totals. -/
def fusionConfidence (b s : ℕ) : ℚ :=
  if s + 1 < b then (b : ℚ) / ((b : ℚ) + (s : ℚ))
  else if b + 1 < s then (s : ℚ) / ((b : ℚ) + (s : ℚ))
  else 1 / 2

/-- Bullish points of a signal record, as the spec describes them: 2 for a
bullish trend, 1 for an oversold RSI, 1 for a bullish MACD. -/
def recordBull (r : SignalRecord) : ℕ :=
  (if r.trend_analysis.trend = "bullish" then 2 else 0) +
    (if r.rsi_signal = "oversold" then 1 else 0) +
    (if r.macd_signal = "bullish" then 1 else 0)

/-- Bearish points of a signal record: the complementary contributions. -/
def recordBear (r : SignalRecord) : ℕ :=
  (if r.trend_analysis.trend = "bullish" then 0 else 2) +
    (if r.rsi_signal = "overbought" then 1 else 0) +
    (if r.macd_signal = "bullish" then 0 else 1)

/-- All 23 columns of the augmented frame, in source order. -/
def allCols (d : OutDF) : List (List Cell) :=
  [d.open_, d.high, d.low, d.close, d.volume,
   d.rsi, d.macd, d.macd_signal, d.macd_diff,
   d.bb_high, d.bb_low, d.bb_mid,
   d.ema_9, d.ema_21, d.sma_50,
   d.volume_ema, d.volume_ratio,
   d.price_change, d.high_low_ratio, d.close_open_ratio,
   d.volatility, d.support, d.resistance]

/-- Row `i` of the augmented frame, as the tuple of its 23 cells. -/
def rowAt (d : OutDF) (i : ℕ) : List (Option Cell) :=
  (allCols d).map (fun c => (c)[i]?)

/-- The 18 indicator columns of the augmented frame, each paired with the
raw (pre-fill) column it was filled from. -/
def colPairs (s : List Bar) : List (List Cell × List Cell) :=
  [(trail rsiLast s, (calcOut s).rsi),
   (trail macdLast s, (calcOut s).macd),
   (trail macdSignalLast s, (calcOut s).macd_signal),
   (trail macdDiffLast s, (calcOut s).macd_diff),
   (trail bbHighLast s, (calcOut s).bb_high),
   (trail bbLowLast s, (calcOut s).bb_low),
   (trail bbMidLast s, (calcOut s).bb_mid),
   (trail (fun p => emaLast 9 (closesOf p)) s, (calcOut s).ema_9),
   (trail (fun p => emaLast 21 (closesOf p)) s, (calcOut s).ema_21),
   (trail (fun p => rollLast 50 meanQ (closesOf p)) s, (calcOut s).sma_50),
   (trail volumeEmaLast s, (calcOut s).volume_ema),
   (trail volumeRatioLast s, (calcOut s).volume_ratio),
   (trail priceChangeLast s, (calcOut s).price_change),
   (trail highLowLast s, (calcOut s).high_low_ratio),
   (trail closeOpenLast s, (calcOut s).close_open_ratio),
   (trail volatilityLast s, (calcOut s).volatility),
   (trail supportLast s, (calcOut s).support),
   (trail resistanceLast s, (calcOut s).resistance)]

/-- The head-fill rule the specification claims: strictly between row 0 and
the first defined row of the raw column, the filled column carries the first
defined value. -/
def HeadFillFromFirst (raw fil : List Cell) : Prop :=
  ∀ j, firstSomeIdx raw = some j → ∀ i, 0 < i → i < j → fil[i]? = raw[j]?

/-- The fill rule the code implements: a defined raw cell is kept, an
undefined cell takes the last defined raw value at or before it, and a cell
with no defined predecessor becomes 0. -/
def FfillThenZero (raw fil : List Cell) : Prop :=
  fil.length = raw.length ∧
    ∀ i, i < raw.length →
      fil[i]? = some (some ((lastSome (raw.take (i + 1))).getD 0))

/-! ### Concrete fixtures -/

/-- Build a bar. -/
def mkBar (t o h l c v : ℚ) : Bar := ⟨t, o, h, l, c, v⟩

/-- A one-bar series. -/
def fxOneBar : List Bar := [mkBar 0 1 1 1 1 1]

/-- A ten-bar valid series whose seventh close spikes; chosen so that the
regressor's and the classifier's 80% training partitions (7 and 8 rows)
have different feature means. -/
def fxTen : List Bar :=
  (List.range 10).map (fun i => mkBar (i : ℚ) 1 2 1 (if i = 7 then 2 else 1) 1)

/-- A 50-bar valid constant series. -/
def fxFifty : List Bar := (List.range 50).map (fun i => mkBar (i : ℚ) 1 1 1 1 1)

/-- A malformed series: timestamps decrease and one close is negative. -/
def fxMal : List Bar := [mkBar 2 1 1 1 1 1, mkBar 1 1 1 1 (-1) 1, mkBar 0 1 1 1 1 1]

/-- Two-bar series sharing its first bar with `fxPrefB`. -/
def fxPrefA : List Bar := [mkBar 0 1 1 1 1 1, mkBar 1 2 2 2 2 2]

/-- Three-bar series sharing its first bar with `fxPrefA`. -/
def fxPrefB : List Bar := [mkBar 0 1 1 1 1 1, mkBar 5 3 3 3 3 3, mkBar 6 4 4 4 4 4]

/-- The record produced by the untrained trader on `fxOneBar`. -/
def fxUntrainedRecord : SignalRecord :=
  { price_prediction := []
    trend_analysis := ⟨"neutral", 1 / 2, none⟩
    rsi_value := 50
    rsi_signal := "neutral"
    macd_value := 0
    macd_signal := "bearish"
    recommendation := "SELL"
    confidence := 1 }

/-- A small fully-trained state for the persistence claims. -/
def fxTrained : TraderState :=
  { price_predictor := some ⟨[[1]], [2]⟩
    trend_classifier := some ⟨[[1]], [1]⟩
    scaler := some ⟨[0], [1]⟩
    prophet_model := some ⟨[(0, 1)]⟩ }

/-! ### Lemmas about the fill machinery -/

/-- One step of the forward-fill carry. -/
def ffStep (acc : Cell) (c : Cell) : Cell :=
  match c with
  | some v => some v
  | none => acc

theorem ffillAux_length (acc : Cell) (xs : List Cell) :
    (ffillAux acc xs).length = xs.length := by
  induction xs generalizing acc with
  | nil => rfl
  | cons c cs ih => cases c <;> simp [ffillAux, ih]

theorem fillCol_length (xs : List Cell) : (fillCol xs).length = xs.length := by
  simp [fillCol, ffillAux_length]

theorem trail_length (f : List Bar → Cell) (s : List Bar) :
    (trail f s).length = s.length := by
  simp [trail]

theorem lastSome_eq_foldl (xs : List Cell) : lastSome xs = xs.foldl ffStep none := by
  unfold lastSome
  congr 1

theorem ffillAux_getElem? (acc : Cell) (xs : List Cell) (i : ℕ) (h : i < xs.length) :
    (ffillAux acc xs)[i]? = some ((xs.take (i + 1)).foldl ffStep acc) := by
  induction xs generalizing acc i with
  | nil => simp at h
  | cons c cs ih =>
    cases c with
    | some v =>
      cases i with
      | zero => simp [ffillAux, ffStep]
      | succ n =>
        simp only [List.length_cons, Nat.succ_lt_succ_iff] at h
        simp [ffillAux, List.take_succ_cons, ffStep, ih (some v) n h]
    | none =>
      cases i with
      | zero => simp [ffillAux, ffStep]
      | succ n =>
        simp only [List.length_cons, Nat.succ_lt_succ_iff] at h
        simp [ffillAux, List.take_succ_cons, ffStep, ih acc n h]

theorem fillCol_getElem? (xs : List Cell) (i : ℕ) (h : i < xs.length) :
    (fillCol xs)[i]? = some (some ((lastSome (xs.take (i + 1))).getD 0)) := by
  simp [fillCol, List.getElem?_map, ffillAux_getElem? none xs i h, lastSome_eq_foldl]

theorem fillCol_isSome {xs : List Cell} {c : Cell} (hc : c ∈ fillCol xs) :
    c.isSome = true := by
  simp only [fillCol, List.mem_map] at hc
  obtain ⟨a, -, rfl⟩ := hc
  rfl

theorem fillCol_map_some (xs : List ℚ) : fillCol (xs.map some) = xs.map some := by
  have haux : ∀ (acc : Cell), ffillAux acc (xs.map some) = xs.map some := by
    intro acc
    induction xs generalizing acc with
    | nil => rfl
    | cons x xs ih => simp [ffillAux, ih]
  simp [fillCol, haux none, List.map_map, Function.comp]

theorem fillCol_getElem?_congr {xs ys : List Cell} {i : ℕ}
    (hx : i < xs.length) (hy : i < ys.length)
    (h : xs.take (i + 1) = ys.take (i + 1)) :
    (fillCol xs)[i]? = (fillCol ys)[i]? := by
  rw [fillCol_getElem? xs i hx, fillCol_getElem? ys i hy, h]

theorem trail_getElem? (f : List Bar → Cell) (s : List Bar) (i : ℕ) (h : i < s.length) :
    (trail f s)[i]? = some (f (s.take (i + 1))) := by
  simp [trail, List.getElem?_map, List.getElem?_range, h]

theorem trail_take (f : List Bar → Cell) {s t : List Bar} {i : ℕ}
    (hs : i < s.length) (ht : i < t.length)
    (h : s.take (i + 1) = t.take (i + 1)) :
    (trail f s).take (i + 1) = (trail f t).take (i + 1) := by
  apply List.ext_getElem?
  intro j
  rcases Nat.lt_or_ge j (i + 1) with hj | hj
  · rw [List.getElem?_take_of_lt hj, List.getElem?_take_of_lt hj,
      trail_getElem? f s j (lt_of_lt_of_le hj (Nat.succ_le_of_lt hs)),
      trail_getElem? f t j (lt_of_lt_of_le hj (Nat.succ_le_of_lt ht))]
    have hsj : s.take (j + 1) = t.take (j + 1) := by
      have h2 : (s.take (i + 1)).take (j + 1) = (t.take (i + 1)).take (j + 1) := by rw [h]
      simpa [List.take_take, Nat.min_eq_left hj] using h2
    rw [hsj]
  · rw [List.getElem?_eq_none, List.getElem?_eq_none]
    · simpa [trail_length, Nat.min_eq_left (Nat.succ_le_of_lt ht)] using hj
    · simpa [trail_length, Nat.min_eq_left (Nat.succ_le_of_lt hs)] using hj

theorem trailFill_agree (f : List Bar → Cell) {s t : List Bar} {i : ℕ}
    (hs : i < s.length) (ht : i < t.length)
    (h : s.take (i + 1) = t.take (i + 1)) :
    (fillCol (trail f s))[i]? = (fillCol (trail f t))[i]? :=
  fillCol_getElem?_congr (by simpa [trail_length] using hs)
    (by simpa [trail_length] using ht) (trail_take f hs ht h)

theorem baseFill_agree (g : Bar → ℚ) {s t : List Bar} {i : ℕ}
    (hs : i < s.length) (ht : i < t.length)
    (h : s.take (i + 1) = t.take (i + 1)) :
    (fillCol (s.map (fun b => some (g b))))[i]? =
      (fillCol (t.map (fun b => some (g b))))[i]? := by
  apply fillCol_getElem?_congr (by simpa using hs) (by simpa using ht)
  rw [← List.map_take, ← List.map_take, h]

theorem fillCol_map_some_base (g : Bar → ℚ) (s : List Bar) :
    fillCol (s.map (fun b => some (g b))) = s.map (fun b => some (g b)) := by
  have h1 : s.map (fun b => some (g b)) = (s.map g).map some := by
    simp [List.map_map, Function.comp]
  rw [h1, fillCol_map_some]

/-! ### Claim C4 -/

/-- Claim C4, refuted: `calculate_technical_indicators` is claimed to reject
every series with non-monotonic timestamps or negative prices before any
computation; on the concrete malformed series `fxMal` (decreasing
timestamps, a negative close) it instead returns the augmented frame. -/
theorem C4_counterexample :
    ¬ (∀ s : List Bar, MalformedSeries s →
        ∃ e, calculate_technical_indicators s = .error e) := by
  intro hcl
  obtain ⟨e, he⟩ := hcl fxMal (by decide)
  simp [calculate_technical_indicators] at he

/-- Claim C4, amended: the indicator engine performs no malformed-series
validation at all — every malformed series is processed normally and the
augmented frame is returned without error. -/
theorem C4_no_validation (s : List Bar) (_hmal : MalformedSeries s) :
    calculate_technical_indicators s = .ok (calcOut s) := rfl

/-- Witness for `C4_no_validation` at the concrete malformed series. -/
theorem C4_no_validation_witness :
    MalformedSeries fxMal ∧ calculate_technical_indicators fxMal = .ok (calcOut fxMal) :=
  ⟨by decide, C4_no_validation fxMal (by decide)⟩

/-! ### Claim C6 -/

/-- Claim C6, refuted: after a failed load the system is claimed to be in
the untrained state (all members absent).  Concretely, loading a store whose
price part is readable but whose remaining parts are missing/corrupt leaves
the freshly loaded price predictor in place. -/
theorem C6_counterexample :
    ¬ (∀ (st : TraderState) (store : Store),
        (store.price = none ∨ store.trend = none ∨ store.scalerPart = none ∨
          store.prophet = none) →
        (load_models st store).price_predictor = none ∧
          (load_models st store).trend_classifier = none ∧
          (load_models st store).prophet_model = none) := by
  intro hcl
  have h := hcl initState ⟨some ⟨[], []⟩, none, none, none⟩ (by simp)
  exact absurd h.1 (by decide)

/-- Claim C6, amended: `load_models` catches the failure and returns
normally (nothing is surfaced), keeping every part assigned before the
first failing slot — in load order price predictor, trend classifier,
scaler, prophet — and the previous values of the rest, so a partial load
leaves a mixed state rather than an untrained one. -/
theorem C6_partial_load (st : TraderState) (store : Store) :
    (store.price = none → load_models st store = st) ∧
    (∀ p, store.price = some p → store.trend = none →
      load_models st store = { st with price_predictor := some p }) ∧
    (∀ p t, store.price = some p → store.trend = some t → store.scalerPart = none →
      load_models st store =
        { st with price_predictor := some p, trend_classifier := some t }) ∧
    (∀ p t sc, store.price = some p → store.trend = some t →
      store.scalerPart = some sc → store.prophet = none →
      load_models st store =
        { st with
          price_predictor := some p
          trend_classifier := some t
          scaler := sc }) ∧
    (∀ p t sc pm, store.price = some p → store.trend = some t →
      store.scalerPart = some sc → store.prophet = some pm →
      load_models st store =
        { st with
          price_predictor := some p
          trend_classifier := some t
          scaler := sc
          prophet_model := some pm }) := by
  refine ⟨fun h1 => ?_, fun p h1 h2 => ?_, fun p t h1 h2 h3 => ?_,
    fun p t sc h1 h2 h3 h4 => ?_, fun p t sc pm h1 h2 h3 h4 => ?_⟩ <;>
    simp [load_models, h1]
  · simp [h2]
  · simp [h2, h3]
  · simp [h2, h3, h4]
  · simp [h2, h3, h4]

/-- Witness for `C6_partial_load`: a store whose trend part fails keeps the
newly loaded price predictor and the old remainder. -/
theorem C6_partial_load_witness :
    load_models fxTrained ⟨some ⟨[[2]], [3]⟩, none, none, none⟩ =
      { fxTrained with price_predictor := some ⟨[[2]], [3]⟩ } :=
  (C6_partial_load fxTrained ⟨some ⟨[[2]], [3]⟩, none, none, none⟩).2.1
    ⟨[[2]], [3]⟩ rfl rfl

/-! ### Claim C7 -/

/-- Claim C7, confirmed: saving a trained model set and loading it back
yields a state whose price, trend and forecast predictions on any fixed
feature row are exactly those of the pre-save state (the four-part bundle
round-trips; the persistence collaborator is exact by contract). -/
theorem C7_roundtrip (st st0 : TraderState) (x : List ℚ)
    (hp : st.price_predictor.isSome = true)
    (ht : st.trend_classifier.isSome = true)
    (hm : st.prophet_model.isSome = true) :
    predict_price (load_models st0 (save_models st)) x = predict_price st x ∧
    predict_trend (load_models st0 (save_models st)) x = predict_trend st x ∧
    (load_models st0 (save_models st)).prophet_model = st.prophet_model := by
  obtain ⟨p, hp'⟩ := Option.isSome_iff_exists.mp hp
  obtain ⟨t, ht'⟩ := Option.isSome_iff_exists.mp ht
  obtain ⟨pm, hm'⟩ := Option.isSome_iff_exists.mp hm
  have hload : load_models st0 (save_models st) =
      { st0 with
        price_predictor := st.price_predictor
        trend_classifier := st.trend_classifier
        scaler := st.scaler
        prophet_model := st.prophet_model } := by
    simp [save_models, load_models, hp', ht', hm']
  rw [hload]
  exact ⟨rfl, rfl, rfl⟩

/-- Witness for `C7_roundtrip` at a concrete trained state. -/
theorem C7_roundtrip_witness :
    predict_price (load_models initState (save_models fxTrained)) [] =
        predict_price fxTrained [] ∧
    predict_trend (load_models initState (save_models fxTrained)) [] =
        predict_trend fxTrained [] ∧
    (load_models initState (save_models fxTrained)).prophet_model =
        fxTrained.prophet_model :=
  C7_roundtrip fxTrained initState [] rfl rfl rfl

/-! ### Claim C8 -/

/-- Claim C8, confirmed: `prepare_features` selects exactly the fifteen
named columns, in the fixed order rsi, macd, macd_signal, macd_diff,
bb_high, bb_low, bb_mid, ema_9, ema_21, sma_50, volume_ratio, price_change,
high_low_ratio, close_open_ratio, volatility; every name resolves to the
corresponding column of the augmented frame, and the output is the same
canonical 15-column list on every call with a given input. -/
theorem C8_feature_selection :
    featureColumns =
      ["rsi", "macd", "macd_signal", "macd_diff", "bb_high", "bb_low", "bb_mid",
       "ema_9", "ema_21", "sma_50", "volume_ratio", "price_change",
       "high_low_ratio", "close_open_ratio", "volatility"] ∧
    ∀ s : List Bar,
      prepare_features s = (featureCols (calcOut s)).map some ∧
      (prepare_features s).length = 15 :=
  ⟨rfl, fun _ => ⟨rfl, rfl⟩⟩

/-! ### Claim C1 -/

/-- Claim C1, confirmed: for every input, the record returned by
`generate_trading_signals` satisfies the Signal Fusion rule — with b the
bullish points (2 for a bullish trend analysis, 1 for an oversold RSI
signal, 1 for a bullish MACD signal) and s the complementary bearish
points, the recommendation is BUY when b > s + 1, SELL when s > b + 1, HOLD
otherwise, and the confidence is the winning side's points over b + s, or
exactly 1/2 on HOLD; in particular the rule sends b = 4, s = 2 to BUY with
confidence 4/6 and b = 3, s = 3 to HOLD with confidence 1/2. -/
theorem C1_signal_fusion :
    (∀ (st : TraderState) (df : List Bar) (r : SignalRecord),
        generate_trading_signals st df = some r →
        r.recommendation = fusionRecommendation (recordBull r) (recordBear r) ∧
        r.confidence = fusionConfidence (recordBull r) (recordBear r)) ∧
    fusionRecommendation 4 2 = "BUY" ∧ fusionConfidence 4 2 = 4 / 6 ∧
    fusionRecommendation 3 3 = "HOLD" ∧ fusionConfidence 3 3 = 1 / 2 := by
  refine ⟨?_, rfl, by norm_num [fusionConfidence], rfl, rfl⟩
  intro st df r h
  simp only [generate_trading_signals] at h
  cases hgl : df.getLast? with
  | none => rw [hgl] at h; cases h
  | some latest =>
    rw [hgl] at h
    cases hpp : predict_price st ((featureMatrix df).getLast?.getD []) with
    | none =>
      rw [hpp] at h
      cases hpt : predict_trend st ((featureMatrix df).getLast?.getD []) with
      | none => rw [hpt] at h; cases h
      | some ta => rw [hpt] at h; cases h
    | some pp =>
      rw [hpp] at h
      cases hpt : predict_trend st ((featureMatrix df).getLast?.getD []) with
      | none => rw [hpt] at h; cases h
      | some ta =>
        rw [hpt] at h
        injection h with h2
        subst h2
        exact ⟨rfl, rfl⟩

attribute [local semireducible] Rat.mul Rat.inv Rat.add Rat.sub in
/-- Witness for `C1_signal_fusion` on the untrained trader and a one-bar
series. -/
theorem C1_signal_fusion_witness :
    fxUntrainedRecord.recommendation =
        fusionRecommendation (recordBull fxUntrainedRecord) (recordBear fxUntrainedRecord) ∧
    fxUntrainedRecord.confidence =
        fusionConfidence (recordBull fxUntrainedRecord) (recordBear fxUntrainedRecord) :=
  C1_signal_fusion.1 initState fxOneBar fxUntrainedRecord (by decide)

/-! ### Claim C10 -/

attribute [local semireducible] Rat.mul Rat.inv Rat.add Rat.sub in
/-- Claim C10, confirmed: the point totals of every returned record sum to
3 or 4 (trend always contributes 2 to one side, MACD 1 to one side, RSI 0
or 1), a BUY or SELL recommendation implies confidence at least 3/4, and
the confidence always lies in the set 1/2, 3/4, 1. -/
theorem C10_confidence_range :
    ∀ (st : TraderState) (df : List Bar) (r : SignalRecord),
      generate_trading_signals st df = some r →
      (recordBull r + recordBear r = 3 ∨ recordBull r + recordBear r = 4) ∧
      ((r.recommendation = "BUY" ∨ r.recommendation = "SELL") → 3 / 4 ≤ r.confidence) ∧
      (r.confidence = 1 / 2 ∨ r.confidence = 3 / 4 ∨ r.confidence = 1) := by
  intro st df r h
  simp only [generate_trading_signals] at h
  cases hgl : df.getLast? with
  | none => rw [hgl] at h; cases h
  | some latest =>
    rw [hgl] at h
    cases hpp : predict_price st ((featureMatrix df).getLast?.getD []) with
    | none =>
      rw [hpp] at h
      cases hpt : predict_trend st ((featureMatrix df).getLast?.getD []) with
      | none => rw [hpt] at h; cases h
      | some ta => rw [hpt] at h; cases h
    | some pp =>
      rw [hpp] at h
      cases hpt : predict_trend st ((featureMatrix df).getLast?.getD []) with
      | none => rw [hpt] at h; cases h
      | some ta =>
        rw [hpt] at h
        injection h with h2
        subst h2
        by_cases htr : ta.trend = "bullish" <;>
          simp [recordBull, recordBear, barGet, htr] <;> decide

attribute [local semireducible] Rat.mul Rat.inv Rat.add Rat.sub in
/-- Witness for `C10_confidence_range` on the untrained trader and a
one-bar series. -/
theorem C10_confidence_range_witness :
    (recordBull fxUntrainedRecord + recordBear fxUntrainedRecord = 3 ∨
      recordBull fxUntrainedRecord + recordBear fxUntrainedRecord = 4) ∧
    ((fxUntrainedRecord.recommendation = "BUY" ∨
        fxUntrainedRecord.recommendation = "SELL") →
      3 / 4 ≤ fxUntrainedRecord.confidence) ∧
    (fxUntrainedRecord.confidence = 1 / 2 ∨ fxUntrainedRecord.confidence = 3 / 4 ∨
      fxUntrainedRecord.confidence = 1) :=
  C10_confidence_range initState fxOneBar fxUntrainedRecord (by decide)

/-! ### Claim C2 -/

attribute [local semireducible] Rat.mul Rat.inv Rat.add Rat.sub in
/-- Claim C2, refuted: with no trained member, `predict_price` does return
the empty no-prediction result and `predict_trend` the neutral default, but
Signal Fusion does not degrade to HOLD with confidence 1/2 — on the
concrete one-bar series the untrained trader recommends SELL with
confidence 1 (the neutral trend is counted as bearish and the raw-frame
MACD default 0 as bearish). -/
theorem C2_counterexample :
    ¬ ((∀ x : List ℚ, predict_price initState x = some []) ∧
       (∀ x : List ℚ, predict_trend initState x = some ⟨"neutral", 1 / 2, none⟩) ∧
       (∀ (df : List Bar) (r : SignalRecord),
          generate_trading_signals initState df = some r →
          r.recommendation = "HOLD" ∧ r.confidence = 1 / 2)) := by
  intro hcl
  have h := hcl.2.2 fxOneBar fxUntrainedRecord (by decide)
  exact absurd h.1 (by decide)

attribute [local semireducible] Rat.mul Rat.inv Rat.add Rat.sub in
/-- Claim C2, amended: with no trained member, `predict_price` returns the
explicit empty result and `predict_trend` the neutral default with
confidence 1/2, both without raising; `generate_trading_signals` also
returns normally on every non-empty series — but the fusion counts the
neutral trend as bearish (2 points) and the raw-frame MACD default as
bearish (1 point), so the untrained degradation is always SELL with
confidence 1, not HOLD with 1/2. -/
theorem C2_untrained_behavior :
    (∀ x : List ℚ, predict_price initState x = some []) ∧
    (∀ x : List ℚ, predict_trend initState x = some ⟨"neutral", 1 / 2, none⟩) ∧
    (∀ df : List Bar, df ≠ [] → (generate_trading_signals initState df).isSome = true) ∧
    (∀ (df : List Bar) (r : SignalRecord),
        generate_trading_signals initState df = some r →
        r.price_prediction = [] ∧ r.trend_analysis = ⟨"neutral", 1 / 2, none⟩ ∧
        r.recommendation = "SELL" ∧ r.confidence = 1) := by
  refine ⟨fun x => rfl, fun x => rfl, ?_, ?_⟩
  · intro df hne
    cases hgl : df.getLast? with
    | none => exact absurd (List.getLast?_eq_none_iff.mp hgl) hne
    | some latest =>
      simp [generate_trading_signals, hgl, predict_price, predict_trend, initState]
  · intro df r h
    simp only [generate_trading_signals] at h
    cases hgl : df.getLast? with
    | none => rw [hgl] at h; cases h
    | some latest =>
      rw [hgl] at h
      rw [show predict_price initState ((featureMatrix df).getLast?.getD []) =
        some [] from rfl] at h
      rw [show predict_trend initState ((featureMatrix df).getLast?.getD []) =
        some ⟨"neutral", 1 / 2, none⟩ from rfl] at h
      injection h with h2
      subst h2
      refine ⟨rfl, rfl, ?_, ?_⟩ <;> simp [barGet] <;> decide

attribute [local semireducible] Rat.mul Rat.inv Rat.add Rat.sub in
/-- Witness for `C2_untrained_behavior` on the one-bar series. -/
theorem C2_untrained_behavior_witness :
    fxOneBar ≠ [] ∧ (generate_trading_signals initState fxOneBar).isSome = true ∧
    (fxUntrainedRecord.price_prediction = [] ∧
      fxUntrainedRecord.trend_analysis = ⟨"neutral", 1 / 2, none⟩ ∧
      fxUntrainedRecord.recommendation = "SELL" ∧ fxUntrainedRecord.confidence = 1) :=
  ⟨by decide, C2_untrained_behavior.2.2.1 fxOneBar (by decide),
    C2_untrained_behavior.2.2.2 fxOneBar fxUntrainedRecord (by decide)⟩

/-! ### Claim C3 -/

attribute [local semireducible] Rat.mul Rat.inv Rat.add Rat.sub in
/-- Claim C3, refuted: the scaling parameters in force at inference are
claimed to be exactly those fit during `train_price_predictor`; on the
concrete series `fxTen` the full training flow leaves different parameters,
because `train_trend_classifier` refits the shared scaler on its own 80%
partition (which keeps the last row that the regressor's target shift
drops). -/
theorem C3_counterexample :
    ¬ (∀ df : List Bar,
        (train_ai_models df).scaler = (train_price_predictor initState df).scaler) := by
  intro hcl
  exact absurd (hcl fxTen) (by decide)

/-- Claim C3, amended: `predict_price` does apply the state's current
scaler parameters verbatim, but after the standard training flow those are
the parameters fit on the trend classifier's 80% training partition — the
shared scaler is refit by `train_trend_classifier` after
`train_price_predictor`. -/
theorem C3_scaler_refit :
    (∀ df : List Bar,
      (train_ai_models df).scaler = some (fitScaler (clsTrainData df).1) ∧
      (train_ai_models df).scaler =
        (train_trend_classifier (train_price_predictor initState df) df).scaler) ∧
    (∀ (st : TraderState) (sp : ScalerParams) (m : RegModel) (x : List ℚ),
      st.scaler = some sp → st.price_predictor = some m →
      ∃ rest, predict_price st x =
        some (("random_forest", rfPredict m (scalerTransform sp x)) :: rest)) := by
  refine ⟨fun df => ⟨rfl, rfl⟩, ?_⟩
  intro st sp m x hsp hm
  cases hpm : st.prophet_model with
  | none =>
    refine ⟨[("ensemble", meanQ ([("random_forest",
      rfPredict m (scalerTransform sp x))].map Prod.snd))], ?_⟩
    simp [predict_price, hm, hsp, hpm]
  | some pm =>
    refine ⟨[("prophet", prophetNext pm)] ++ [("ensemble", meanQ
      ((("random_forest", rfPredict m (scalerTransform sp x)) ::
        [("prophet", prophetNext pm)]).map Prod.snd))], ?_⟩
    simp [predict_price, hm, hsp, hpm]

/-- Witness for `C3_scaler_refit` at a concrete fitted state. -/
theorem C3_scaler_refit_witness :
    ∃ rest, predict_price fxTrained [] =
      some (("random_forest", rfPredict (⟨[[1]], [2]⟩ : RegModel)
        (scalerTransform (⟨[0], [1]⟩ : ScalerParams) [])) :: rest) :=
  C3_scaler_refit.2 fxTrained ⟨[0], [1]⟩ ⟨[[1]], [2]⟩ [] rfl rfl

/-! ### Claim C5 -/

set_option maxRecDepth 4000 in
attribute [local semireducible] Rat.mul Rat.inv Rat.add Rat.sub in
/-- Claim C5, refuted: the output of the indicator engine indeed holds no
NaN, but the undefined head rows are not back-filled from the first defined
value — on the constant valid 50-bar series `fxFifty` the `sma_50` column
first becomes defined at row 49 with value 1, yet row 1 of the returned
column is 0 (forward fill leaves leading NaNs, which `fillna(0)` zeroes). -/
theorem C5_counterexample :
    ¬ (∀ s : List Bar, ValidSeries s → 50 ≤ s.length →
        (∀ col ∈ allCols (calcOut s), ∀ c ∈ col, c.isSome = true) ∧
        (∀ pr ∈ colPairs s, HeadFillFromFirst pr.1 pr.2)) := by
  intro hcl
  have hmem : (trail (fun p => rollLast 50 meanQ (closesOf p)) fxFifty,
      (calcOut fxFifty).sma_50) ∈ colPairs fxFifty := by
    unfold colPairs
    exact List.mem_cons_of_mem _ (List.mem_cons_of_mem _ (List.mem_cons_of_mem _
      (List.mem_cons_of_mem _ (List.mem_cons_of_mem _ (List.mem_cons_of_mem _
      (List.mem_cons_of_mem _ (List.mem_cons_of_mem _ (List.mem_cons_of_mem _
      (List.mem_cons_self _ _)))))))))
  have h := (hcl fxFifty (by decide) (by decide)).2 _ hmem 49 (by decide) 1
    (by norm_num) (by norm_num)
  rw [show ((calcOut fxFifty).sma_50)[1]? = some (some 0) from by decide,
    show (trail (fun p => rollLast 50 meanQ (closesOf p)) fxFifty)[49]? =
      some (some 1) from by decide] at h
  exact absurd h (by decide)

/-- Claim C5, amended: for every valid series of length at least 50 the
returned frame holds no NaN in any cell of any column, and each indicator
column obeys the implemented fill rule: a defined raw cell is kept, an
undefined cell takes the last defined raw value before it, and a cell with
no defined predecessor (every head row, not just row 0) becomes 0. -/
theorem C5_fill_total (s : List Bar) (_hval : ValidSeries s) (_hlen : 50 ≤ s.length) :
    (∀ col ∈ allCols (calcOut s), ∀ c ∈ col, c.isSome = true) ∧
    (∀ pr ∈ colPairs s, FfillThenZero pr.1 pr.2) := by
  constructor
  · intro col hcol c hc
    simp only [allCols, List.mem_cons, List.not_mem_nil, or_false] at hcol
    rcases hcol with rfl|rfl|rfl|rfl|rfl|rfl|rfl|rfl|rfl|rfl|rfl|rfl|rfl|rfl|rfl|rfl|rfl|rfl|rfl|rfl|rfl|rfl|rfl <;>
      exact fillCol_isSome hc
  · intro pr hpr
    simp only [colPairs, List.mem_cons, List.not_mem_nil, or_false] at hpr
    rcases hpr with rfl|rfl|rfl|rfl|rfl|rfl|rfl|rfl|rfl|rfl|rfl|rfl|rfl|rfl|rfl|rfl|rfl|rfl <;>
      exact ⟨fillCol_length _, fun i hi => fillCol_getElem? _ i hi⟩

/-- Witness for `C5_fill_total` on the valid 50-bar series. -/
theorem C5_fill_total_witness :
    ValidSeries fxFifty ∧ 50 ≤ fxFifty.length ∧
      ((∀ col ∈ allCols (calcOut fxFifty), ∀ c ∈ col, c.isSome = true) ∧
       (∀ pr ∈ colPairs fxFifty, FfillThenZero pr.1 pr.2)) :=
  ⟨by decide, by decide, C5_fill_total fxFifty (by decide) (by decide)⟩

/-! ### Claim C9 -/

/-- Claim C9, confirmed: the indicator engine returns a frame with the same
number of rows, the original open, high, low, close and volume values
unchanged (only indicator columns are added), and every cell of row `i` is
computed from data at or before row `i`: two series that agree on their
first `i + 1` bars have identical output rows `i` (no look-ahead). -/
theorem C9_frame_and_causality (s : List Bar) :
    ((calcOut s).open_ = s.map (fun b => some b.open_) ∧
     (calcOut s).high = s.map (fun b => some b.high) ∧
     (calcOut s).low = s.map (fun b => some b.low) ∧
     (calcOut s).close = s.map (fun b => some b.close) ∧
     (calcOut s).volume = s.map (fun b => some b.volume)) ∧
    (∀ col ∈ allCols (calcOut s), col.length = s.length) ∧
    (∀ (t : List Bar) (i : ℕ), i < s.length → i < t.length →
      s.take (i + 1) = t.take (i + 1) → rowAt (calcOut s) i = rowAt (calcOut t) i) := by
  refine ⟨⟨fillCol_map_some_base Bar.open_ s, fillCol_map_some_base Bar.high s,
    fillCol_map_some_base Bar.low s, fillCol_map_some_base Bar.close s,
    fillCol_map_some_base Bar.volume s⟩, ?_, ?_⟩
  · intro col hcol
    simp only [allCols, List.mem_cons, List.not_mem_nil, or_false] at hcol
    rcases hcol with rfl|rfl|rfl|rfl|rfl|rfl|rfl|rfl|rfl|rfl|rfl|rfl|rfl|rfl|rfl|rfl|rfl|rfl|rfl|rfl|rfl|rfl|rfl <;>
      simp [calcOut, fillCol_length, trail_length]
  · intro t i his hit htake
    simp only [rowAt, allCols, calcOut, List.map_cons, List.map_nil, List.cons.injEq,
      and_true]
    exact ⟨baseFill_agree Bar.open_ his hit htake, baseFill_agree Bar.high his hit htake,
      baseFill_agree Bar.low his hit htake, baseFill_agree Bar.close his hit htake,
      baseFill_agree Bar.volume his hit htake,
      trailFill_agree rsiLast his hit htake,
      trailFill_agree macdLast his hit htake,
      trailFill_agree macdSignalLast his hit htake,
      trailFill_agree macdDiffLast his hit htake,
      trailFill_agree bbHighLast his hit htake,
      trailFill_agree bbLowLast his hit htake,
      trailFill_agree bbMidLast his hit htake,
      trailFill_agree (fun p => emaLast 9 (closesOf p)) his hit htake,
      trailFill_agree (fun p => emaLast 21 (closesOf p)) his hit htake,
      trailFill_agree (fun p => rollLast 50 meanQ (closesOf p)) his hit htake,
      trailFill_agree volumeEmaLast his hit htake,
      trailFill_agree volumeRatioLast his hit htake,
      trailFill_agree priceChangeLast his hit htake,
      trailFill_agree highLowLast his hit htake,
      trailFill_agree closeOpenLast his hit htake,
      trailFill_agree volatilityLast his hit htake,
      trailFill_agree supportLast his hit htake,
      trailFill_agree resistanceLast his hit htake⟩

/-- Witness for `C9_frame_and_causality`: two series sharing their first
bar have identical output rows 0. -/
theorem C9_frame_and_causality_witness :
    rowAt (calcOut fxPrefA) 0 = rowAt (calcOut fxPrefB) 0 :=
  (C9_frame_and_causality fxPrefA).2.2 fxPrefB 0 (by decide) (by decide) (by decide)

end SolanaAITrader
